import Mathlib

/-!
Verification development for the AWS-Potato serverless backend
(`src/backend/lambda/{projects,auth,file-upload,pdf-processor}`).

The Python handlers are shallowly embedded: relational tables become lists
of row structures, each handler action becomes a pure function from the
request event plus the current table state to a response plus the new state,
and fallible collaborator calls (database insert conflicts, S3 URL minting,
the Gemini REST call) are threaded explicitly as `Except`/sum values.
Python truthiness on strings is modelled by `pyTruthy` on `Option String`
(absent key, `None`, and `""` are all falsy).
-/

namespace AWSPotato

/-- Python truthiness for an optional string value: `None` / absent and the
empty string are falsy, every other string is truthy. -/
def pyTruthy : Option String → Bool
  | none => false
  | some s => s != ""

/-- Python `a or b` on two optional string values: the left operand wins
exactly when it is truthy. -/
def pyOr (a b : Option String) : Option String :=
  if pyTruthy a then a else b

/-- SQL `COALESCE(a, b)`: the first non-NULL operand.  Note that the empty
string is not NULL, so `coalesce (some "") b = some ""`. -/
def coalesce (a b : Option String) : Option String :=
  match a with
  | some v => some v
  | none => b

namespace Projects

/-- One row of the `user_details` table created by
`src/backend/lambda/projects/projects.py` (`create_tables`).  The
`created_at`/`updated_at` columns play no role in any claim and are omitted;
`last_login` is kept as an abstract clock value. -/
structure UserRow where
  user_id : String
  email : String
  project_id : String
  cognito_sub : Option String
  last_login : Option Nat
deriving DecidableEq, Repr

/-- The relational store visible to the projects Lambda: the `projects`
table (only its `project_id` column matters to the logic) and the
`user_details` table. -/
structure DBState where
  projects : List String
  users : List UserRow
deriving DecidableEq, Repr

/-- The `{project_id, user_id, email}` dictionary returned by
`create_or_update_user_project`. -/
structure ProjResult where
  project_id : String
  user_id : String
  email : String
deriving DecidableEq, Repr

/-- `SELECT ... FROM user_details WHERE cognito_sub = %s` (first row). -/
def findBySub (v : String) (rows : List UserRow) : Option UserRow :=
  rows.find? (fun r => r.cognito_sub == some v)

/-- `SELECT ... FROM user_details WHERE user_id = %s LIMIT 1`. -/
def findByUser (u : String) (rows : List UserRow) : Option UserRow :=
  rows.find? (fun r => r.user_id == u)

/-- `SELECT ... FROM user_details WHERE email = %s LIMIT 1`. -/
def findByEmail (e : String) (rows : List UserRow) : Option UserRow :=
  rows.find? (fun r => r.email == e)

/-- The `if cognito_sub:` guarded probe of `create_or_update_user_project`
(projects.py lines 72-79): the lookup by `cognito_sub` runs only when the
supplied value is Python-truthy. -/
def probeBySub (s? : Option String) (rows : List UserRow) : Option UserRow :=
  match s? with
  | some v => if v = "" then none else findBySub v rows
  | none => none

/-- The three-stage existence probe of `create_or_update_user_project`
(projects.py lines 69-97): by `cognito_sub` when truthy, then by `user_id`,
then by `email`; the first hit wins. -/
def probeExisting (u e : String) (s? : Option String) (rows : List UserRow) :
    Option UserRow :=
  (probeBySub s? rows).or ((findByUser u rows).or (findByEmail e rows))

/-- The column assignments of the `UPDATE user_details SET last_login = NOW(),
cognito_sub = COALESCE(%s, cognito_sub), user_id = %s, email = %s` statement
(projects.py lines 101-109) applied to one row. -/
def refreshRow (u e : String) (s? : Option String) (now : Nat) (r : UserRow) :
    UserRow :=
  { r with user_id := u, email := e, cognito_sub := coalesce s? r.cognito_sub,
           last_login := some now }

/-- The `UPDATE ... WHERE project_id = %s` of the matched branch: every row
whose `project_id` equals the matched row's is refreshed. -/
def applyMatchUpdate (u e : String) (s? : Option String) (now : Nat)
    (pid : String) (rows : List UserRow) : List UserRow :=
  rows.map (fun r => if r.project_id = pid then refreshRow u e s? now r else r)

/-- The recovery lookup run inside the `except` branch (projects.py lines
163-170): a single `WHERE user_id = %s OR email = %s OR cognito_sub = %s
LIMIT 1` query.  A SQL comparison against a NULL parameter is never true, so
the third disjunct fires only when a subject was supplied. -/
def retryLookup (u e : String) (s? : Option String) (rows : List UserRow) :
    Option UserRow :=
  rows.find? (fun r => r.user_id == u || r.email == e ||
    (s?.isSome && r.cognito_sub == s?))

/-- `create_or_update_user_project(user_id, email, cognito_sub)`
(projects.py lines 62-187), with the nondeterministic `uuid.uuid4()` and
`NOW()` passed in as `freshPid` and `now`.

The create path's two INSERTs raise a uniqueness violation exactly when
 * the new `project_id` collides with an existing `projects.project_id`
   (UNIQUE constraint), or
 * a supplied (non-NULL) `cognito_sub` already appears in `user_details`
   (UNIQUE constraint on `cognito_sub`).
The `ON CONFLICT (user_id, project_id) DO UPDATE` clause of the second
INSERT never fires here, because the probe just established that no row has
`user_id = %s` at all.  On a violation the transaction is rolled back (the
attempted `projects` row is discarded), the recovery lookup runs, and either
the found row's own `(project_id, user_id, email)` triple is returned or the
routine raises `"Unable to create or find user project after conflict"`. -/
def create_or_update_user_project (st : DBState) (u e : String)
    (s? : Option String) (freshPid : String) (now : Nat) :
    Except String (DBState × ProjResult) :=
  match probeExisting u e s? st.users with
  | some r =>
      .ok ({ st with users := applyMatchUpdate u e s? now r.project_id st.users },
           { project_id := r.project_id, user_id := u, email := e })
  | none =>
      if st.projects.contains freshPid ||
          (s?.isSome && st.users.any (fun r => r.cognito_sub == s?)) then
        match retryLookup u e s? st.users with
        | some r =>
            .ok (st, { project_id := r.project_id, user_id := r.user_id,
                       email := r.email })
        | none => .error "Unable to create or find user project after conflict"
      else
        .ok ({ projects := freshPid :: st.projects,
               users := st.users ++ [{ user_id := u, email := e,
                                       project_id := freshPid,
                                       cognito_sub := s?,
                                       last_login := some now }] },
             { project_id := freshPid, user_id := u, email := e })

/-- `(some a).or b = some a`, stated once for rewriting. -/
theorem opt_some_or {α : Type} (a : α) (b : Option α) :
    (Option.or (some a) b) = some a := rfl

/-- `none.or b = b`, stated once for rewriting. -/
theorem opt_none_or {α : Type} (b : Option α) : (Option.or none b) = b := rfl

/-- With no subject supplied, the sub stage finds nothing. -/
theorem probeBySub_none_subject (rows : List UserRow) :
    probeBySub none rows = none := rfl

/-- With an empty-string subject (Python-falsy), the sub stage is skipped. -/
theorem probeBySub_empty (rows : List UserRow) :
    probeBySub (some "") rows = none := rfl

/-- With a truthy subject the sub stage is the `cognito_sub` lookup. -/
theorem probeBySub_truthy (v : String) (hv : v ≠ "") (rows : List UserRow) :
    probeBySub (some v) rows = findBySub v rows := by
  show (if v = "" then none else findBySub v rows) = findBySub v rows
  rw [if_neg hv]

/-- A row delivered by the sub stage is a row of the table. -/
theorem probeBySub_mem {s? : Option String} {rows : List UserRow} {r : UserRow}
    (h : probeBySub s? rows = some r) : r ∈ rows := by
  cases s? with
  | none => simp [probeBySub] at h
  | some v =>
    by_cases hv : v = ""
    · subst hv; rw [probeBySub_empty] at h; exact Option.noConfusion h
    · rw [probeBySub_truthy v hv] at h
      exact List.mem_of_find?_eq_some h

/-- A row delivered by the three-stage probe is a row of the table. -/
theorem probeExisting_mem {u e : String} {s? : Option String}
    {rows : List UserRow} {r : UserRow}
    (h : probeExisting u e s? rows = some r) : r ∈ rows := by
  unfold probeExisting at h
  cases hbs : probeBySub s? rows with
  | some r0 =>
    rw [hbs, opt_some_or] at h
    injection h with h'
    rw [h'] at hbs
    exact probeBySub_mem hbs
  | none =>
    rw [hbs, opt_none_or] at h
    cases hu : findByUser u rows with
    | some r0 =>
      rw [hu, opt_some_or] at h
      injection h with h'
      rw [h'] at hu
      exact List.mem_of_find?_eq_some hu
    | none =>
      rw [hu, opt_none_or] at h
      exact List.mem_of_find?_eq_some h

/-- Decomposition of a failed probe: all three stage lookups failed. -/
theorem probeExisting_eq_none {u e : String} {s? : Option String}
    {rows : List UserRow}
    (h : probeExisting u e s? rows = none) :
    probeBySub s? rows = none ∧ findByUser u rows = none ∧
      findByEmail e rows = none := by
  unfold probeExisting at h
  cases hbs : probeBySub s? rows with
  | some r0 => rw [hbs, opt_some_or] at h; exact absurd h (by simp)
  | none =>
    rw [hbs, opt_none_or] at h
    cases hu : findByUser u rows with
    | some r0 => rw [hu, opt_some_or] at h; exact absurd h (by simp)
    | none => rw [hu, opt_none_or] at h; exact ⟨rfl, rfl, h⟩

/-- If a stage lookup found a row whose `project_id` is `p`, then after the
matched-branch `UPDATE` (which rewrites exactly the rows with
`project_id = p`, and whose rewrite forces the stage predicate to hold) the
same stage lookup still delivers a row with `project_id = p`. -/
theorem find?_map_upd_of_found (q : UserRow → Bool) (chg : UserRow → UserRow)
    (p : String) (hq : ∀ x, q (chg x) = true)
    (hp : ∀ x, (chg x).project_id = x.project_id) :
    ∀ (rows : List UserRow) (r : UserRow),
      rows.find? q = some r → r.project_id = p →
      ∃ r', (rows.map (fun x => if x.project_id = p then chg x else x)).find? q
              = some r' ∧ r'.project_id = p := by
  intro rows
  induction rows with
  | nil => intro r h _; simp at h
  | cons a t ih =>
    intro r hfind hr
    by_cases hap : a.project_id = p
    · refine ⟨chg a, ?_, by rw [hp]; exact hap⟩
      rw [List.map_cons, if_pos hap]
      exact List.find?_cons_of_pos _ (hq a)
    · cases hqa : q a with
      | true =>
        rw [List.find?_cons_of_pos _ hqa] at hfind
        injection hfind with hra
        subst hra
        exact absurd hr hap
      | false =>
        rw [List.find?_cons_of_neg _ (by simp [hqa])] at hfind
        obtain ⟨r', h1', h2'⟩ := ih r hfind hr
        refine ⟨r', ?_, h2'⟩
        rw [List.map_cons, if_neg hap,
            List.find?_cons_of_neg _ (by simp [hqa])]
        exact h1'

/-- If a stage lookup found nothing, but the table holds some row with
`project_id = p`, then after the matched-branch `UPDATE` the stage lookup
delivers a row with `project_id = p` (the rewrite establishes the stage
predicate on every rewritten row). -/
theorem find?_map_upd_of_none (q : UserRow → Bool) (chg : UserRow → UserRow)
    (p : String) (hq : ∀ x, q (chg x) = true)
    (hp : ∀ x, (chg x).project_id = x.project_id) :
    ∀ (rows : List UserRow) (r : UserRow),
      rows.find? q = none → r ∈ rows → r.project_id = p →
      ∃ r', (rows.map (fun x => if x.project_id = p then chg x else x)).find? q
              = some r' ∧ r'.project_id = p := by
  intro rows
  induction rows with
  | nil => intro r _ h _; simp at h
  | cons a t ih =>
    intro r hnone hmem hr
    have hqa : q a = false := by
      cases hqa : q a with
      | true => rw [List.find?_cons_of_pos _ hqa] at hnone; simp at hnone
      | false => rfl
    by_cases hap : a.project_id = p
    · refine ⟨chg a, ?_, by rw [hp]; exact hap⟩
      rw [List.map_cons, if_pos hap]
      exact List.find?_cons_of_pos _ (hq a)
    · rw [List.find?_cons_of_neg _ (by simp [hqa])] at hnone
      rcases List.mem_cons.mp hmem with h | h
      · subst h; exact absurd hr hap
      · obtain ⟨r', h1', h2'⟩ := ih r hnone h hr
        refine ⟨r', ?_, h2'⟩
        rw [List.map_cons, if_neg hap,
            List.find?_cons_of_neg _ (by simp [hqa])]
        exact h1'

/-- After the matched-branch `UPDATE`, the probe run with the very same
identity again delivers a row carrying the same `project_id`. -/
theorem probeExisting_applyMatchUpdate (u e : String) (s? : Option String)
    (t : Nat) (rows : List UserRow) (r : UserRow)
    (hfind : probeExisting u e s? rows = some r) :
    ∃ r', probeExisting u e s? (applyMatchUpdate u e s? t r.project_id rows)
            = some r' ∧ r'.project_id = r.project_id := by
  have hp : ∀ x, (refreshRow u e s? t x).project_id = x.project_id :=
    fun _ => rfl
  have hmem : r ∈ rows := probeExisting_mem hfind
  unfold probeExisting at hfind
  cases s? with
  | some v =>
    by_cases hv : v = ""
    · -- empty subject is falsy: the sub stage is skipped on both runs
      subst hv
      rw [probeBySub_empty, opt_none_or] at hfind
      have hquser : ∀ x,
          ((refreshRow u e (some "") t x).user_id == u) = true := by
        intro x; simp [refreshRow]
      cases hu : findByUser u rows with
      | some r0 =>
        rw [hu, opt_some_or] at hfind
        injection hfind with hr0
        rw [hr0] at hu
        obtain ⟨r', h1', h2'⟩ := find?_map_upd_of_found
          (fun x => x.user_id == u) (refreshRow u e (some "") t) r.project_id
          hquser hp rows r hu rfl
        refine ⟨r', ?_, h2'⟩
        unfold probeExisting
        rw [probeBySub_empty, opt_none_or,
            show findByUser u
                (applyMatchUpdate u e (some "") t r.project_id rows)
              = some r' from h1', opt_some_or]
      | none =>
        rw [hu, opt_none_or] at hfind
        have hmem' : r ∈ rows := hmem
        obtain ⟨r', h1', h2'⟩ := find?_map_upd_of_none
          (fun x => x.user_id == u) (refreshRow u e (some "") t) r.project_id
          hquser hp rows r hu hmem' rfl
        refine ⟨r', ?_, h2'⟩
        unfold probeExisting
        rw [probeBySub_empty, opt_none_or,
            show findByUser u
                (applyMatchUpdate u e (some "") t r.project_id rows)
              = some r' from h1', opt_some_or]
    · -- truthy subject: the second probe succeeds already at the sub stage,
      -- because the UPDATE wrote `cognito_sub := some v` into matched rows
      have hqsub : ∀ x,
          ((refreshRow u e (some v) t x).cognito_sub == some v) = true := by
        intro x; simp [refreshRow, coalesce]
      rw [probeBySub_truthy v hv] at hfind
      cases hs : findBySub v rows with
      | some r0 =>
        rw [hs, opt_some_or] at hfind
        injection hfind with hr0
        rw [hr0] at hs
        obtain ⟨r', h1', h2'⟩ := find?_map_upd_of_found
          (fun x => x.cognito_sub == some v) (refreshRow u e (some v) t)
          r.project_id hqsub hp rows r hs rfl
        refine ⟨r', ?_, h2'⟩
        unfold probeExisting
        rw [probeBySub_truthy v hv,
            show findBySub v
                (applyMatchUpdate u e (some v) t r.project_id rows)
              = some r' from h1', opt_some_or]
      | none =>
        rw [hs, opt_none_or] at hfind
        obtain ⟨r', h1', h2'⟩ := find?_map_upd_of_none
          (fun x => x.cognito_sub == some v) (refreshRow u e (some v) t)
          r.project_id hqsub hp rows r hs hmem rfl
        refine ⟨r', ?_, h2'⟩
        unfold probeExisting
        rw [probeBySub_truthy v hv,
            show findBySub v
                (applyMatchUpdate u e (some v) t r.project_id rows)
              = some r' from h1', opt_some_or]
  | none =>
    rw [probeBySub_none_subject, opt_none_or] at hfind
    have hquser : ∀ x, ((refreshRow u e none t x).user_id == u) = true := by
      intro x; simp [refreshRow]
    cases hu : findByUser u rows with
    | some r0 =>
      rw [hu, opt_some_or] at hfind
      injection hfind with hr0
      rw [hr0] at hu
      obtain ⟨r', h1', h2'⟩ := find?_map_upd_of_found
        (fun x => x.user_id == u) (refreshRow u e none t) r.project_id
        hquser hp rows r hu rfl
      refine ⟨r', ?_, h2'⟩
      unfold probeExisting
      rw [probeBySub_none_subject, opt_none_or,
          show findByUser u (applyMatchUpdate u e none t r.project_id rows)
            = some r' from h1', opt_some_or]
    | none =>
      rw [hu, opt_none_or] at hfind
      obtain ⟨r', h1', h2'⟩ := find?_map_upd_of_none
        (fun x => x.user_id == u) (refreshRow u e none t) r.project_id
        hquser hp rows r hu hmem rfl
      refine ⟨r', ?_, h2'⟩
      unfold probeExisting
      rw [probeBySub_none_subject, opt_none_or,
          show findByUser u (applyMatchUpdate u e none t r.project_id rows)
            = some r' from h1', opt_some_or]
/-- Equation: the probe matched, so the routine updates and returns. -/
theorem create_eq_matched {st : DBState} {u e : String} {s? : Option String}
    (fp : String) (now : Nat) {r : UserRow}
    (hprobe : probeExisting u e s? st.users = some r) :
    create_or_update_user_project st u e s? fp now =
      .ok ({ st with users := applyMatchUpdate u e s? now r.project_id st.users },
           { project_id := r.project_id, user_id := u, email := e }) := by
  unfold create_or_update_user_project
  rw [hprobe]

/-- Equation: the probe failed, the insert hit a uniqueness violation, and
the recovery lookup found a row: state is rolled back, the row's own triple
is returned. -/
theorem create_eq_conflict_found {st : DBState} {u e : String}
    {s? : Option String} {fp : String} (now : Nat) {r : UserRow}
    (hprobe : probeExisting u e s? st.users = none)
    (hc : (st.projects.contains fp ||
            (s?.isSome && st.users.any (fun x => x.cognito_sub == s?))) = true)
    (hretry : retryLookup u e s? st.users = some r) :
    create_or_update_user_project st u e s? fp now =
      .ok (st, { project_id := r.project_id, user_id := r.user_id,
                 email := r.email }) := by
  unfold create_or_update_user_project
  rw [hprobe, hc, hretry]
  rfl

/-- Equation: the probe failed, the insert hit a uniqueness violation, and
even the recovery lookup found nothing: an internal error is raised. -/
theorem create_eq_conflict_none {st : DBState} {u e : String}
    {s? : Option String} {fp : String} (now : Nat)
    (hprobe : probeExisting u e s? st.users = none)
    (hc : (st.projects.contains fp ||
            (s?.isSome && st.users.any (fun x => x.cognito_sub == s?))) = true)
    (hretry : retryLookup u e s? st.users = none) :
    create_or_update_user_project st u e s? fp now =
      .error "Unable to create or find user project after conflict" := by
  unfold create_or_update_user_project
  rw [hprobe, hc, hretry]
  rfl

/-- Equation: the probe failed and the insert succeeds: one new `Project`
row and one new `UserDetail` row are created. -/
theorem create_eq_insert {st : DBState} {u e : String} {s? : Option String}
    {fp : String} (now : Nat)
    (hprobe : probeExisting u e s? st.users = none)
    (hc : (st.projects.contains fp ||
            (s?.isSome && st.users.any (fun x => x.cognito_sub == s?))) = false) :
    create_or_update_user_project st u e s? fp now =
      .ok ({ projects := fp :: st.projects,
             users := st.users ++ [{ user_id := u, email := e,
                                     project_id := fp, cognito_sub := s?,
                                     last_login := some now }] },
           { project_id := fp, user_id := u, email := e }) := by
  unfold create_or_update_user_project
  rw [hprobe, hc]
  rfl

/-- After a successful insert for an identity the probe could not find,
the probe run with the same identity finds exactly the appended row. -/
theorem probeExisting_append_new (u e : String) (s? : Option String)
    (rows : List UserRow) (fp : String) (t : Nat)
    (hnone : probeExisting u e s? rows = none) :
    probeExisting u e s?
        (rows ++ [{ user_id := u, email := e, project_id := fp,
                    cognito_sub := s?, last_login := some t }]) =
      some { user_id := u, email := e, project_id := fp,
             cognito_sub := s?, last_login := some t } := by
  obtain ⟨hbs, hu, he⟩ := probeExisting_eq_none hnone
  have hu' : List.find? (fun x => x.user_id == u) rows = none := hu
  cases s? with
  | none =>
    unfold probeExisting
    rw [probeBySub_none_subject, opt_none_or]
    unfold findByUser
    rw [List.find?_append, hu', opt_none_or]
    simp [List.find?]
  | some v =>
    by_cases hv : v = ""
    · subst hv
      unfold probeExisting
      rw [probeBySub_empty, opt_none_or]
      unfold findByUser
      rw [List.find?_append, hu', opt_none_or]
      simp [List.find?]
    · unfold probeExisting
      rw [probeBySub_truthy v hv]
      have hbs' : List.find? (fun x => x.cognito_sub == some v) rows = none := by
        rw [probeBySub_truthy v hv] at hbs; exact hbs
      unfold findBySub
      rw [List.find?_append, hbs', opt_none_or]
      simp [List.find?]

/-- C1.  Repeated calls to `create_or_update_user_project` with the same
identity `(user_id, email, cognito_sub)` return the same `project_id`: for
every starting store state, if both the first call and the immediately
following call succeed, the two returned `project_id`s coincide — whichever
of the three probe keys produced the match, and whether the first call took
the matched, the freshly-inserting, or the conflict-recovery path. -/
theorem c1_create_or_update_idempotent (st : DBState) (u e : String)
    (s? : Option String) (p1 p2 : String) (t1 t2 : Nat)
    (st1 st2 : DBState) (r1 r2 : ProjResult)
    (h1 : create_or_update_user_project st u e s? p1 t1 = .ok (st1, r1))
    (h2 : create_or_update_user_project st1 u e s? p2 t2 = .ok (st2, r2)) :
    r1.project_id = r2.project_id := by
  cases hprobe : probeExisting u e s? st.users with
  | some r =>
    rw [create_eq_matched p1 t1 hprobe] at h1
    simp only [Except.ok.injEq, Prod.mk.injEq] at h1
    obtain ⟨hst, hres⟩ := h1
    obtain ⟨r', hf', hpid'⟩ :=
      probeExisting_applyMatchUpdate u e s? t1 st.users r hprobe
    have hprobe2 : probeExisting u e s? st1.users = some r' := by
      rw [← hst]; exact hf'
    rw [create_eq_matched p2 t2 hprobe2] at h2
    simp only [Except.ok.injEq, Prod.mk.injEq] at h2
    obtain ⟨-, hres2⟩ := h2
    rw [← hres, ← hres2]
    exact hpid'.symm
  | none =>
    cases hc : (st.projects.contains p1 ||
        (s?.isSome && st.users.any (fun x => x.cognito_sub == s?))) with
    | true =>
      cases hretry : retryLookup u e s? st.users with
      | some row =>
        rw [create_eq_conflict_found t1 hprobe hc hretry] at h1
        simp only [Except.ok.injEq, Prod.mk.injEq] at h1
        obtain ⟨hst, hres⟩ := h1
        -- the violated constraint can only be the cognito_sub one:
        -- the recovered row matches none of the other two keys
        obtain ⟨-, hu, he⟩ := probeExisting_eq_none hprobe
        have hu' : List.find? (fun x => x.user_id == u) st.users = none := hu
        have he' : List.find? (fun x => x.email == e) st.users = none := he
        have hretry' : List.find? (fun x => x.user_id == u || x.email == e ||
            (s?.isSome && x.cognito_sub == s?)) st.users = some row := hretry
        have hrowmem := List.mem_of_find?_eq_some hretry'
        have hpred := List.find?_some hretry'
        have hufalse : (row.user_id == u) = false := by
          have := List.find?_eq_none.mp hu' row hrowmem
          simpa using this
        have hefalse : (row.email == e) = false := by
          have := List.find?_eq_none.mp he' row hrowmem
          simpa using this
        rw [hufalse, hefalse] at hpred
        simp only [Bool.false_or] at hpred
        obtain ⟨hsome, hsub⟩ := Bool.and_eq_true_iff.mp hpred
        have hany : (s?.isSome &&
            st.users.any (fun x => x.cognito_sub == s?)) = true :=
          Bool.and_eq_true_iff.mpr
            ⟨hsome, List.any_eq_true.mpr ⟨row, hrowmem, hsub⟩⟩
        have hc2 : (st.projects.contains p2 ||
            (s?.isSome && st.users.any (fun x => x.cognito_sub == s?))) = true := by
          rw [hany, Bool.or_true]
        have hprobe1 : probeExisting u e s? st1.users = none := by
          rw [← hst]; exact hprobe
        have hretry1 : retryLookup u e s? st1.users = some row := by
          rw [← hst]; exact hretry
        have hc2' : (st1.projects.contains p2 ||
            (s?.isSome && st1.users.any (fun x => x.cognito_sub == s?))) = true := by
          rw [← hst]; exact hc2
        rw [create_eq_conflict_found t2 hprobe1 hc2' hretry1] at h2
        simp only [Except.ok.injEq, Prod.mk.injEq] at h2
        obtain ⟨-, hres2⟩ := h2
        rw [← hres, ← hres2]
      | none =>
        rw [create_eq_conflict_none t1 hprobe hc hretry] at h1
        exact Except.noConfusion h1
    | false =>
      rw [create_eq_insert t1 hprobe hc] at h1
      simp only [Except.ok.injEq, Prod.mk.injEq] at h1
      obtain ⟨hst, hres⟩ := h1
      have hprobe2 : probeExisting u e s? st1.users =
          some { user_id := u, email := e, project_id := p1,
                 cognito_sub := s?, last_login := some t1 } := by
        rw [← hst]
        exact probeExisting_append_new u e s? st.users p1 t1 hprobe
      rw [create_eq_matched p2 t2 hprobe2] at h2
      simp only [Except.ok.injEq, Prod.mk.injEq] at h2
      obtain ⟨-, hres2⟩ := h2
      rw [← hres, ← hres2]

/-- Witness for C1: a concrete signup/signin pair on an initially empty
store returns the same `project_id` both times. -/
theorem c1_witness :
    ({ project_id := "p1", user_id := "alice", email := "a@x" }
        : ProjResult).project_id
      = ({ project_id := "p1", user_id := "alice", email := "a@x" }
          : ProjResult).project_id :=
  c1_create_or_update_idempotent ⟨[], []⟩ "alice" "a@x" (some "s1") "p1" "p2"
    0 1
    ⟨["p1"], [{ user_id := "alice", email := "a@x", project_id := "p1",
                cognito_sub := some "s1", last_login := some 0 }]⟩
    ⟨["p1"], [{ user_id := "alice", email := "a@x", project_id := "p1",
                cognito_sub := some "s1", last_login := some 1 }]⟩
    { project_id := "p1", user_id := "alice", email := "a@x" }
    { project_id := "p1", user_id := "alice", email := "a@x" }
    rfl rfl

/-- C2.  Whenever the probe finds an existing `user_details` row, the call
returns that row's `project_id` unchanged and rewrites exactly the rows
carrying that `project_id`: `last_login` becomes the current time,
`user_id`/`email` become the freshly supplied values, and `cognito_sub` is
COALESCEd.  Moreover — on every successful call, whichever path it takes —
no existing row's `project_id` is ever replaced. -/
theorem c2_match_updates_and_pid_preserved (st : DBState) (u e : String)
    (s? : Option String) (fp : String) (t : Nat) (st' : DBState)
    (res : ProjResult)
    (h : create_or_update_user_project st u e s? fp t = .ok (st', res)) :
    (∀ i : Nat, i < st.users.length →
        st'.users[i]?.map (fun x => x.project_id)
          = st.users[i]?.map (fun x => x.project_id))
    ∧ (∀ row, probeExisting u e s? st.users = some row →
        res.project_id = row.project_id
        ∧ ∀ (i : Nat) (r0 : UserRow),
            st.users[i]? = some r0 → r0.project_id = row.project_id →
            st'.users[i]? = some { r0 with user_id := u, email := e,
                                           cognito_sub :=
                                             coalesce s? r0.cognito_sub,
                                           last_login := some t }) := by
  cases hprobe : probeExisting u e s? st.users with
  | some r =>
    rw [create_eq_matched fp t hprobe] at h
    simp only [Except.ok.injEq, Prod.mk.injEq] at h
    obtain ⟨hst, hres⟩ := h
    constructor
    · intro i hi
      rw [← hst]
      show (applyMatchUpdate u e s? t r.project_id st.users)[i]?.map
            (fun x => x.project_id)
          = st.users[i]?.map (fun x => x.project_id)
      unfold applyMatchUpdate
      rw [List.getElem?_map]
      cases hx : st.users[i]? with
      | none => rfl
      | some x =>
        by_cases hxp : x.project_id = r.project_id
        · simp [if_pos hxp, refreshRow, hxp]
        · simp [if_neg hxp]
    · intro row hrow
      injection hrow with hrr
      subst hrr
      refine ⟨by rw [← hres], ?_⟩
      intro i r0 hi0 hpid0
      rw [← hst]
      show (applyMatchUpdate u e s? t r.project_id st.users)[i]?
          = some { r0 with user_id := u, email := e,
                           cognito_sub := coalesce s? r0.cognito_sub,
                           last_login := some t }
      unfold applyMatchUpdate
      rw [List.getElem?_map, hi0]
      simp only [Option.map_some']
      rw [if_pos hpid0]
      rfl
  | none =>
    cases hc : (st.projects.contains fp ||
        (s?.isSome && st.users.any (fun x => x.cognito_sub == s?))) with
    | true =>
      cases hretry : retryLookup u e s? st.users with
      | some row =>
        rw [create_eq_conflict_found t hprobe hc hretry] at h
        simp only [Except.ok.injEq, Prod.mk.injEq] at h
        obtain ⟨hst, -⟩ := h
        constructor
        · intro i hi; rw [← hst]
        · intro row' hrow'
          exact Option.noConfusion hrow'
      | none =>
        rw [create_eq_conflict_none t hprobe hc hretry] at h
        exact Except.noConfusion h
    | false =>
      rw [create_eq_insert t hprobe hc] at h
      simp only [Except.ok.injEq, Prod.mk.injEq] at h
      obtain ⟨hst, -⟩ := h
      constructor
      · intro i hi
        rw [← hst]
        show (st.users ++ [{ user_id := u, email := e, project_id := fp,
                             cognito_sub := s?, last_login := some t }])[i]?.map
              (fun x => x.project_id)
            = st.users[i]?.map (fun x => x.project_id)
        rw [List.getElem?_append, if_pos hi]
      · intro row' hrow'
        exact Option.noConfusion hrow'

/-- Witness for C2: a store holding the row `(bob, b@old, P0, s1)`, called
with refreshed identity `(bob2, b@new, s1)`, returns the untouched
`project_id` `P0`. -/
theorem c2_witness :
    ({ project_id := "P0", user_id := "bob2", email := "b@new" }
        : ProjResult).project_id
      = ({ user_id := "bob", email := "b@old", project_id := "P0",
           cognito_sub := some "s1", last_login := none } : UserRow).project_id :=
  ((c2_match_updates_and_pid_preserved
      ⟨["P0"], [{ user_id := "bob", email := "b@old", project_id := "P0",
                  cognito_sub := some "s1", last_login := none }]⟩
      "bob2" "b@new" (some "s1") "p9" 7
      ⟨["P0"], [{ user_id := "bob2", email := "b@new", project_id := "P0",
                  cognito_sub := some "s1", last_login := some 7 }]⟩
      { project_id := "P0", user_id := "bob2", email := "b@new" }
      rfl).2
    { user_id := "bob", email := "b@old", project_id := "P0",
      cognito_sub := some "s1", last_login := none } rfl).1

/-- C3.  When the probe found nothing and the insert hits a uniqueness
violation (fresh `project_id` already present, or supplied `cognito_sub`
already present), the routine rolls back — the attempted project is
discarded, the state returned is the unchanged input state — re-runs a
lookup, and either returns the now-existing row's own
`(project_id, user_id, email)` triple or raises the internal consistency
error; it never fabricates a result. -/
theorem c3_conflict_retry_or_error (st : DBState) (u e : String)
    (s? : Option String) (fp : String) (t : Nat)
    (hprobe : probeExisting u e s? st.users = none)
    (hconf : (st.projects.contains fp ||
        (s?.isSome && st.users.any (fun x => x.cognito_sub == s?))) = true) :
    (∃ row, retryLookup u e s? st.users = some row
        ∧ create_or_update_user_project st u e s? fp t
            = .ok (st, { project_id := row.project_id,
                         user_id := row.user_id, email := row.email }))
    ∨ (retryLookup u e s? st.users = none
        ∧ create_or_update_user_project st u e s? fp t
            = .error "Unable to create or find user project after conflict") := by
  cases hretry : retryLookup u e s? st.users with
  | some row =>
    exact Or.inl ⟨row, rfl, create_eq_conflict_found t hprobe hconf hretry⟩
  | none =>
    exact Or.inr ⟨rfl, create_eq_conflict_none t hprobe hconf hretry⟩

/-- Witness for C3: a brand-new identity supplied with the (falsy but
non-NULL) subject `""` collides with an existing `cognito_sub = ""` row;
the recovery lookup returns that row's triple, state unchanged. -/
theorem c3_witness :
    (∃ row, retryLookup "new" "n@x" (some "")
          [{ user_id := "bob", email := "b@x", project_id := "P0",
             cognito_sub := some "", last_login := some 0 }] = some row
        ∧ create_or_update_user_project
            ⟨["P0"], [{ user_id := "bob", email := "b@x", project_id := "P0",
                        cognito_sub := some "", last_login := some 0 }]⟩
            "new" "n@x" (some "") "p1" 5
            = .ok (⟨["P0"], [{ user_id := "bob", email := "b@x",
                               project_id := "P0", cognito_sub := some "",
                               last_login := some 0 }]⟩,
                   { project_id := row.project_id, user_id := row.user_id,
                     email := row.email }))
    ∨ (retryLookup "new" "n@x" (some "")
          [{ user_id := "bob", email := "b@x", project_id := "P0",
             cognito_sub := some "", last_login := some 0 }] = none
        ∧ create_or_update_user_project
            ⟨["P0"], [{ user_id := "bob", email := "b@x", project_id := "P0",
                        cognito_sub := some "", last_login := some 0 }]⟩
            "new" "n@x" (some "") "p1" 5
            = .error "Unable to create or find user project after conflict") :=
  c3_conflict_retry_or_error
    ⟨["P0"], [{ user_id := "bob", email := "b@x", project_id := "P0",
                cognito_sub := some "", last_login := some 0 }]⟩
    "new" "n@x" (some "") "p1" 5 rfl rfl

end Projects

/-- The fields of an API-Gateway Lambda event that the three front-end
handlers actually read: the Cognito authorizer claims (`claimsPresent`
models truthiness of the `claims` dict), the bare authorizer fields, the
`x-user-id` header, and the JSON body's keys.  An `Option` field is `none`
when the corresponding key is absent. -/
structure ApiEvent where
  httpMethod : String
  claimsPresent : Bool
  claimsUsername : Option String
  claimsSub : Option String
  claimsEmail : Option String
  authPrincipalId : Option String
  authSub : Option String
  authEmail : Option String
  headerUserId : Option String
  bodyAction : Option String
  bodyUserId : Option String
  bodyEmail : Option String
  bodyCognitoSub : Option String
  bodyFileId : Option String
  bodySignedUrl : Option String
  bodyProcessingId : Option String
  bodyQuestion : Option String
  bodyFilename : Option String
  bodyContentType : Option String
  bodyProjectId : Option String
  bodyFileSize : Option Nat
deriving DecidableEq, Repr

/-- A POST event with empty authorizer, headers and body, for building
concrete events by field update. -/
def ApiEvent.base : ApiEvent where
  httpMethod := "POST"
  claimsPresent := false
  claimsUsername := none
  claimsSub := none
  claimsEmail := none
  authPrincipalId := none
  authSub := none
  authEmail := none
  headerUserId := none
  bodyAction := none
  bodyUserId := none
  bodyEmail := none
  bodyCognitoSub := none
  bodyFileId := none
  bodySignedUrl := none
  bodyProcessingId := none
  bodyQuestion := none
  bodyFilename := none
  bodyContentType := none
  bodyProjectId := none
  bodyFileSize := none

namespace Projects

/-- `extract_user_info(event)` of projects.py (lines 222-249): user id from
the Cognito claims (`claims.get('cognito:username') or claims.get('sub')`,
Python `or`), and only when that is falsy, from the authorizer's
`principalId or sub`.  Headers and body are never consulted. -/
def extract_user_info (ev : ApiEvent) : Option String × Option String :=
  let fromClaimsId :=
    if ev.claimsPresent then pyOr ev.claimsUsername ev.claimsSub else none
  let fromClaimsEmail := if ev.claimsPresent then ev.claimsEmail else none
  if pyTruthy fromClaimsId then (fromClaimsId, fromClaimsEmail)
  else (pyOr ev.authPrincipalId ev.authSub, ev.authEmail)

/-- The projects handler's verdict: HTTP status, resulting store state, and
whether any database operation was attempted. -/
structure ProjOutcome where
  statusCode : Nat
  st : DBState
  storeTouched : Bool
deriving DecidableEq, Repr

/-- `handler(event, context)` of projects.py (lines 251-333).  The
`create_project` action validates `user_id`/`email` with Python truthiness
(`if not user_id or not email`) before calling
`create_or_update_user_project`; `get_projects` authenticates via
`extract_user_info` and reads the store; anything else is a 400.  An
exception escaping the action body is converted to a 500 envelope. -/
def handler (ev : ApiEvent) (st : DBState) (freshPid : String) (now : Nat) :
    ProjOutcome :=
  match ev.bodyAction with
  | some "create_project" =>
      match ev.bodyUserId, ev.bodyEmail with
      | some u, some e =>
          if u = "" ∨ e = "" then ⟨400, st, false⟩
          else
            match create_or_update_user_project st u e ev.bodyCognitoSub
                freshPid now with
            | .ok (st', _) => ⟨200, st', true⟩
            | .error _ => ⟨500, st, true⟩
      | _, _ => ⟨400, st, false⟩
  | some "get_projects" =>
      if pyTruthy (extract_user_info ev).1 then ⟨200, st, true⟩
      else ⟨401, st, false⟩
  | _ => ⟨400, st, false⟩

/-- Counterexample to C6: a `create_project` request whose `user_id` is the
whitespace-only string `" "` is NOT rejected — `" "` is Python-truthy, no
trimming is performed (projects.py line 268 checks only `if not user_id or
not email`), so the request reaches the store and succeeds with 200. -/
theorem c6_counterexample :
    (handler { ApiEvent.base with bodyAction := some "create_project",
                                  bodyUserId := some " ",
                                  bodyEmail := some "e@x.com" }
        ⟨[], []⟩ "p1" 0).statusCode = 200
    ∧ (handler { ApiEvent.base with bodyAction := some "create_project",
                                    bodyUserId := some " ",
                                    bodyEmail := some "e@x.com" }
        ⟨[], []⟩ "p1" 0).storeTouched = true := ⟨rfl, rfl⟩

/-- C6 amended: only a *missing or empty-string* (Python-falsy) `user_id`
or `email` is rejected with 400 before any store operation; values that are
merely whitespace pass validation and reach the store. -/
theorem c6_validation_amended (ev : ApiEvent) (st : DBState) (fp : String)
    (now : Nat) (hact : ev.bodyAction = some "create_project")
    (hbad : ev.bodyUserId = none ∨ ev.bodyUserId = some "" ∨
            ev.bodyEmail = none ∨ ev.bodyEmail = some "") :
    handler ev st fp now = ⟨400, st, false⟩ := by
  unfold handler
  rw [hact]
  cases huid : ev.bodyUserId with
  | none =>
    cases hem : ev.bodyEmail with
    | none => rfl
    | some e2 => rfl
  | some u2 =>
    cases hem : ev.bodyEmail with
    | none => rfl
    | some e2 =>
      rcases hbad with h | h | h | h
      · rw [huid] at h; exact Option.noConfusion h
      · rw [huid] at h; injection h with h'; subst h'; simp
      · rw [hem] at h; exact Option.noConfusion h
      · rw [hem] at h; injection h with h'; subst h'; simp

/-- Witness for C6 (amended): a `create_project` request with an absent
`user_id` yields 400 and an untouched store. -/
theorem c6_witness :
    handler { ApiEvent.base with bodyAction := some "create_project",
                                 bodyEmail := some "e@x.com" }
        ⟨[], []⟩ "p1" 0 = ⟨400, ⟨[], []⟩, false⟩ :=
  c6_validation_amended _ _ _ _ rfl (Or.inl rfl)

end Projects

namespace Auth

/-- The decoded response the auth Lambda builds from the projects Lambda's
reply (auth.py `create_user_project`): status plus the body's
`project_id` / `user_id` / `email` keys. -/
structure LambdaResp where
  statusCode : Nat
  project_id : Option String
  user_id : Option String
  email : Option String
deriving DecidableEq, Repr

/-- `create_user_project(user_id, email, cognito_sub)` of auth.py (lines
51-84).  The inter-Lambda invoke is threaded in as `invokeResult`: on
success the projects Lambda's response is passed through; on ANY exception
(store unreachable, invoke failure, ...) the `except` branch returns a
fabricated 200 response whose `project_id` is the placeholder `"default"`. -/
def create_user_project (u e : String) (s? : Option String)
    (invokeResult : Except String LambdaResp) : LambdaResp :=
  match invokeResult with
  | .ok r => r
  | .error _ =>
      { statusCode := 200, project_id := some "default", user_id := some u,
        email := some e }

/-- Counterexample to C5: when the Project Registrar call fails (store
unreachable), the auth backend does NOT propagate the failure — it returns
a fabricated 200 response with placeholder `project_id = "default"`. -/
theorem c5_counterexample :
    create_user_project "u1" "e@x" none (.error "store unreachable")
      = { statusCode := 200, project_id := some "default",
          user_id := some "u1", email := some "e@x" }
    ∧ (create_user_project "u1" "e@x" none
        (.error "store unreachable")).statusCode ≠ 500 := ⟨rfl, by decide⟩

/-- C5 amended: a failing registrar invocation during signup or signin is
swallowed by `create_user_project` — the caller receives a fabricated 200
response carrying the placeholder `project_id` `"default"` (never the
registrar's result, never a retryable 5xx error); a succeeding invocation
is passed through unchanged. -/
theorem c5_fabricated_default_amended (u e : String) (s? : Option String) :
    (∀ msg, create_user_project u e s? (.error msg)
        = { statusCode := 200, project_id := some "default",
            user_id := some u, email := some e })
    ∧ (∀ r, create_user_project u e s? (.ok r) = r) :=
  ⟨fun _ => rfl, fun _ => rfl⟩

end Auth

namespace FileUpload

/-- One row of the `files` table of
`src/backend/lambda/file-upload/file_upload.py` (`create_files_table`);
`created_at`/`updated_at` are omitted. -/
structure FileRow where
  file_id : String
  original_filename : String
  s3_key : String
  file_size : Nat
  content_type : String
  project_id : Option String
  user_id : String
  user_email : Option String
  upload_status : String
  processing_status : String
deriving DecidableEq, Repr

/-- Result of one file-upload handler action: HTTP status and the `files`
table afterwards. -/
structure FileOutcome where
  statusCode : Nat
  db : List FileRow
deriving DecidableEq, Repr

/-- Python `s.replace(a, b)` for single-character needles: a character-wise
map. -/
def replace_char (a b : Char) (s : String) : String :=
  String.mk (s.data.map (fun c => if c = a then b else c))

/-- `safe_filename = original_filename.replace(' ', '_').replace('/', '_')`
(file_upload.py line 437). -/
def sanitize_filename (s : String) : String :=
  replace_char '/' '_' (replace_char ' ' '_' s)

/-- `content_type = get_content_type_from_filename(...)` fallback
(file_upload.py lines 430-431): the body value when truthy, else the
`mimetypes` guess, which is threaded in as `guess`. -/
def resolve_content_type (ct? : Option String) (guess : String) : String :=
  match ct? with
  | some c => if c = "" then guess else c
  | none => guess

/-- `extract_user_info(event)` of file_upload.py (lines 280-307) — textually
identical to the projects handler's version: claims (`or`-chained), then
the bare authorizer's `principalId or sub`; headers and body are never
consulted. -/
def extract_user_info (ev : ApiEvent) : Option String × Option String :=
  let fromClaimsId :=
    if ev.claimsPresent then pyOr ev.claimsUsername ev.claimsSub else none
  let fromClaimsEmail := if ev.claimsPresent then ev.claimsEmail else none
  if pyTruthy fromClaimsId then (fromClaimsId, fromClaimsEmail)
  else (pyOr ev.authPrincipalId ev.authSub, ev.authEmail)

/-- The `upload` action (file_upload.py lines 412-472): validate the
filename with Python truthiness, derive the S3 key
`{user_id}/{yyyy/mm/dd}/{file_id}_{safe_filename}`, and pre-save a
`pending` metadata row of size 0.  `fid` is the fresh `uuid.uuid4()`,
`date` the `%Y/%m/%d` timestamp. -/
def upload_action (db : List FileRow) (uid : String) (uemail : Option String)
    (filename? contentType? projectId? : Option String)
    (fid date guess : String) : FileOutcome :=
  match filename? with
  | some fname =>
      if fname = "" then ⟨400, db⟩
      else
        ⟨200, db ++ [{ file_id := fid, original_filename := fname,
                       s3_key := uid ++ "/" ++ date ++ "/" ++ fid ++ "_"
                                   ++ sanitize_filename fname,
                       file_size := 0,
                       content_type := resolve_content_type contentType? guess,
                       project_id := projectId?, user_id := uid,
                       user_email := uemail, upload_status := "pending",
                       processing_status := "pending" }]⟩
  | none => ⟨400, db⟩

/-- `update_file_status(file_id, user_id, file_size, upload_status,
processing_status)` (file_upload.py lines 236-278): a dynamic UPDATE that
sets exactly the supplied fields on the rows matching
`file_id AND user_id`, and reports whether any row matched. -/
def update_file_status (db : List FileRow) (fid uid : String)
    (size? : Option Nat) (ustatus? pstatus? : Option String) :
    List FileRow × Bool :=
  (db.map (fun r =>
      if r.file_id == fid && r.user_id == uid then
        { r with file_size := size?.getD r.file_size,
                 upload_status := ustatus?.getD r.upload_status,
                 processing_status := pstatus?.getD r.processing_status }
      else r),
   db.any (fun r => r.file_id == fid && r.user_id == uid))

/-- The dynamic UPDATE's row transformation, as an equation. -/
theorem update_file_status_fst (db : List FileRow) (fid uid : String)
    (size? : Option Nat) (ustatus? pstatus? : Option String) :
    (update_file_status db fid uid size? ustatus? pstatus?).1
      = db.map (fun r =>
          if r.file_id == fid && r.user_id == uid then
            { r with file_size := size?.getD r.file_size,
                     upload_status := ustatus?.getD r.upload_status,
                     processing_status := pstatus?.getD r.processing_status }
          else r) := rfl

/-- `get_file_metadata(file_id, user_id)` (file_upload.py lines 78-112). -/
def get_file_metadata (db : List FileRow) (fid uid : String) :
    Option FileRow :=
  db.find? (fun r => r.file_id == fid && r.user_id == uid)

/-- The `confirm` action (file_upload.py lines 474-518): no check of the
row's current `upload_status` — the row matching `(file_id, user_id)` is
unconditionally moved to `uploaded`, the size set only when supplied. -/
def confirm_action (db : List FileRow) (uid : String)
    (fileId? : Option String) (size? : Option Nat) : FileOutcome :=
  match fileId? with
  | some fid =>
      if fid = "" then ⟨400, db⟩
      else if (update_file_status db fid uid size? (some "uploaded") none).2
        then ⟨200, (update_file_status db fid uid size? (some "uploaded") none).1⟩
      else ⟨404, (update_file_status db fid uid size? (some "uploaded") none).1⟩
  | none => ⟨400, db⟩

/-- The `get` action (file_upload.py lines 520-550). -/
def get_action (db : List FileRow) (uid : String) (fileId? : Option String) :
    FileOutcome :=
  match fileId? with
  | some fid =>
      if fid = "" then ⟨400, db⟩
      else match get_file_metadata db fid uid with
        | some _ => ⟨200, db⟩
        | none => ⟨404, db⟩
  | none => ⟨400, db⟩

/-- The `download` action (file_upload.py lines 565-622): only `uploaded`
rows may be downloaded. -/
def download_action (db : List FileRow) (uid : String)
    (fileId? : Option String) : FileOutcome :=
  match fileId? with
  | some fid =>
      if fid = "" then ⟨400, db⟩
      else match get_file_metadata db fid uid with
        | some m => if m.upload_status = "uploaded" then ⟨200, db⟩
                    else ⟨400, db⟩
        | none => ⟨404, db⟩
  | none => ⟨400, db⟩

/-- The `delete` action (file_upload.py lines 624-681): the metadata row is
removed first (scoped to the caller); only then is the S3 object deleted. -/
def delete_action (db : List FileRow) (uid : String)
    (fileId? : Option String) : FileOutcome :=
  match fileId? with
  | some fid =>
      if fid = "" then ⟨400, db⟩
      else match get_file_metadata db fid uid with
        | some _ =>
            ⟨200, db.filter (fun r => !(r.file_id == fid && r.user_id == uid))⟩
        | none => ⟨404, db⟩
  | none => ⟨400, db⟩

/-- `handler(event, context)` of file_upload.py (lines 377-705): CORS
preflight, then identity from `extract_user_info` (401 when falsy), then
the action dispatch. -/
def handler (ev : ApiEvent) (db : List FileRow) (fid date guess : String) :
    FileOutcome :=
  if ev.httpMethod = "OPTIONS" then ⟨200, db⟩
  else
    match (extract_user_info ev).1 with
    | none => ⟨401, db⟩
    | some uid =>
        if uid = "" then ⟨401, db⟩
        else match ev.bodyAction with
          | some "upload" =>
              upload_action db uid (extract_user_info ev).2 ev.bodyFilename
                ev.bodyContentType ev.bodyProjectId fid date guess
          | some "confirm" => confirm_action db uid ev.bodyFileId ev.bodyFileSize
          | some "get" => get_action db uid ev.bodyFileId
          | some "list" => ⟨200, db⟩
          | some "download" => download_action db uid ev.bodyFileId
          | some "delete" => delete_action db uid ev.bodyFileId
          | _ => ⟨400, db⟩

/-- Each output character of the sanitizer is neither a space nor a slash. -/
theorem sanitize_char_ok (x : Char) :
    (if (if x = ' ' then '_' else x) = '/' then '_'
     else (if x = ' ' then '_' else x)) ≠ ' '
    ∧ (if (if x = ' ' then '_' else x) = '/' then '_'
       else (if x = ' ' then '_' else x)) ≠ '/' := by
  by_cases hsp : x = ' '
  · subst hsp; exact ⟨by decide, by decide⟩
  · rw [if_neg hsp]
    by_cases hsl : x = '/'
    · subst hsl; exact ⟨by decide, by decide⟩
    · rw [if_neg hsl]; exact ⟨hsp, hsl⟩

/-- C7.  A well-formed upload request appends exactly one `files` row with
`upload_status = "pending"` and `file_size = 0`, whose object key is
exactly `{user_id}/{date}/{file_id}_{sanitized filename}`; and the
sanitizer leaves no space and no path separator in the filename component,
so it is a single path segment. -/
theorem c7_upload_slot_key (db : List FileRow) (uid : String)
    (uemail : Option String) (fname : String) (ct? prj? : Option String)
    (fid date guess : String) (hf : fname ≠ "") :
    upload_action db uid uemail (some fname) ct? prj? fid date guess
        = ⟨200, db ++ [{ file_id := fid, original_filename := fname,
                         s3_key := uid ++ "/" ++ date ++ "/" ++ fid ++ "_"
                                     ++ sanitize_filename fname,
                         file_size := 0,
                         content_type := resolve_content_type ct? guess,
                         project_id := prj?, user_id := uid,
                         user_email := uemail, upload_status := "pending",
                         processing_status := "pending" }]⟩
    ∧ ∀ c ∈ (sanitize_filename fname).data, c ≠ ' ' ∧ c ≠ '/' := by
  constructor
  · show (if fname = "" then (⟨400, db⟩ : FileOutcome) else _) = _
    rw [if_neg hf]
  · intro c hc
    have hdata : (sanitize_filename fname).data
        = fname.data.map (fun x =>
            if (if x = ' ' then '_' else x) = '/' then '_'
            else (if x = ' ' then '_' else x)) := by
      show (fname.data.map _).map _ = _
      rw [List.map_map]
      rfl
    rw [hdata] at hc
    rcases List.mem_map.mp hc with ⟨x, -, rfl⟩
    exact sanitize_char_ok x

/-- Witness for C7, the spec's scenario: an upload slot for `report.pdf`
issued to `u1` on `2024/03/05` produces the key
`u1/2024/03/05/f-7_report.pdf`, a `pending` row, and size 0. -/
theorem c7_witness :
    upload_action [] "u1" none (some "report.pdf") none none "f-7"
        "2024/03/05" "application/pdf"
      = ⟨200, [{ file_id := "f-7", original_filename := "report.pdf",
                 s3_key := "u1/2024/03/05/f-7_report.pdf",
                 file_size := 0, content_type := "application/pdf",
                 project_id := none, user_id := "u1", user_email := none,
                 upload_status := "pending",
                 processing_status := "pending" }]⟩
    ∧ ∀ c ∈ (sanitize_filename "report.pdf").data, c ≠ ' ' ∧ c ≠ '/' :=
  (c7_upload_slot_key [] "u1" none "report.pdf" none none "f-7" "2024/03/05"
    "application/pdf" (by decide)).imp_left (fun h => by rw [h]; rfl)

/-- C10.  `confirm` never checks the row's current `upload_status`: for any
row owned by the caller — `pending`, already `uploaded`, anything — the
action answers 200 and sets `upload_status := "uploaded"` on the matching
row, leaving `file_size` unchanged whenever no size is supplied
(`size?.getD`), so re-confirming an already-uploaded file succeeds again. -/
theorem c10_confirm_idempotent (db : List FileRow) (uid fid : String)
    (size? : Option Nat) (hfid : fid ≠ "")
    (hmem : db.any (fun r => r.file_id == fid && r.user_id == uid) = true) :
    (confirm_action db uid (some fid) size?).statusCode = 200
    ∧ ∀ (i : Nat) (r : FileRow), db[i]? = some r →
        (confirm_action db uid (some fid) size?).db[i]?
          = some (if r.file_id == fid && r.user_id == uid then
                    { r with file_size := size?.getD r.file_size,
                             upload_status := "uploaded" }
                  else r) := by
  have hres2 : (update_file_status db fid uid size? (some "uploaded") none).2
      = true := hmem
  have heq : confirm_action db uid (some fid) size?
      = if fid = "" then ⟨400, db⟩
        else if (update_file_status db fid uid size? (some "uploaded") none).2
          then ⟨200, (update_file_status db fid uid size? (some "uploaded") none).1⟩
        else ⟨404, (update_file_status db fid uid size? (some "uploaded") none).1⟩ :=
    rfl
  rw [heq, if_neg hfid, if_pos hres2]
  refine ⟨rfl, ?_⟩
  intro i r hir
  show (update_file_status db fid uid size? (some "uploaded") none).1[i]? = _
  rw [update_file_status_fst, List.getElem?_map, hir]
  rfl

/-- Witness for C10: re-confirming a row already `uploaded` with size 42,
supplying no size, answers 200 and leaves the row unchanged. -/
theorem c10_witness :
    (confirm_action
        [{ file_id := "f1", original_filename := "a.pdf", s3_key := "k",
           file_size := 42, content_type := "application/pdf",
           project_id := none, user_id := "u1", user_email := none,
           upload_status := "uploaded", processing_status := "pending" }]
        "u1" (some "f1") none).statusCode = 200
    ∧ (confirm_action
        [{ file_id := "f1", original_filename := "a.pdf", s3_key := "k",
           file_size := 42, content_type := "application/pdf",
           project_id := none, user_id := "u1", user_email := none,
           upload_status := "uploaded", processing_status := "pending" }]
        "u1" (some "f1") none).db[0]?
      = some { file_id := "f1", original_filename := "a.pdf", s3_key := "k",
               file_size := 42, content_type := "application/pdf",
               project_id := none, user_id := "u1", user_email := none,
               upload_status := "uploaded", processing_status := "pending" } :=
  ⟨(c10_confirm_idempotent
      [{ file_id := "f1", original_filename := "a.pdf", s3_key := "k",
         file_size := 42, content_type := "application/pdf",
         project_id := none, user_id := "u1", user_email := none,
         upload_status := "uploaded", processing_status := "pending" }]
      "u1" "f1" none (by decide) rfl).1,
   (c10_confirm_idempotent
      [{ file_id := "f1", original_filename := "a.pdf", s3_key := "k",
         file_size := 42, content_type := "application/pdf",
         project_id := none, user_id := "u1", user_email := none,
         upload_status := "uploaded", processing_status := "pending" }]
      "u1" "f1" none (by decide) rfl).2 0
     { file_id := "f1", original_filename := "a.pdf", s3_key := "k",
       file_size := 42, content_type := "application/pdf",
       project_id := none, user_id := "u1", user_email := none,
       upload_status := "uploaded", processing_status := "pending" } rfl⟩

end FileUpload

namespace PdfProcessor

/-- One row of the `pdf_processing` table of
`src/backend/lambda/pdf-processor/pdf_processor.py`
(`create_pdf_processing_table` plus the `ALTER TABLE ... ADD COLUMN`
in `save_pdf_processing_record`); `pdf_text`, `agent_session_id` and the
timestamps are omitted (never consulted by the logic). -/
structure ProcRecord where
  processing_id : String
  file_id : String
  user_id : String
  pdf_url : String
  pdf_summary : Option String
  processing_status : String
deriving DecidableEq, Repr

/-- One row of the `pdf_conversations` table. -/
structure ConvRow where
  processing_id : String
  question : String
  answer : String
deriving DecidableEq, Repr

/-- The store visible to the PDF-processor Lambda. -/
structure PdfDB where
  records : List ProcRecord
  convs : List ConvRow
deriving DecidableEq, Repr

/-- The decoded outcome of `process_pdf_with_gemini_rest` (pdf_processor.py
lines 107-222): the function catches every exception itself and returns
either `{"status": "success", "answer": text, "summary": ...}` or
`{"status": "error", "error_message": ...}` — it never raises. -/
inductive GeminiResult where
  | success (text : String)
  | failure (message : String)
deriving DecidableEq, Repr

/-- `save_pdf_processing_record(...)` (pdf_processor.py lines 224-258): an
`INSERT ... ON CONFLICT (processing_id) DO UPDATE` upsert that refreshes
`pdf_url`, `pdf_summary` and `processing_status` of an existing row (never
`file_id`/`user_id`), or appends a new row. -/
def save_pdf_processing_record (db : PdfDB) (pid fid uid url : String)
    (summary : Option String) (status : String) : PdfDB :=
  if db.records.any (fun r => r.processing_id == pid) then
    { db with records := db.records.map (fun r =>
        if r.processing_id == pid then
          { r with pdf_url := url, pdf_summary := summary,
                   processing_status := status }
        else r) }
  else
    { db with records := db.records ++ [{ processing_id := pid,
                                           file_id := fid, user_id := uid,
                                           pdf_url := url,
                                           pdf_summary := summary,
                                           processing_status := status }] }

/-- `get_processing_record(processing_id, user_id)` (pdf_processor.py lines
311-340): the row matching BOTH keys, so cross-user access reads nothing. -/
def get_processing_record (db : PdfDB) (pid uid : String) :
    Option ProcRecord :=
  db.records.find? (fun r => r.processing_id == pid && r.user_id == uid)

/-- `signed_url.startswith('http')` (pdf_processor.py line 419). -/
def starts_with_http (url : String) : Bool :=
  match url.data with
  | 'h' :: 't' :: 't' :: 'p' :: _ => true
  | _ => false

/-- Result of one PDF-processor action: HTTP status, the store afterwards,
and how many times the Gemini service was invoked. -/
structure PdfOutcome where
  statusCode : Nat
  db : PdfDB
  aiCalls : Nat
deriving DecidableEq, Repr

/-- The `process_pdf` branch (pdf_processor.py lines 399-478).  `pid` is
the fresh `uuid.uuid4()`; `mint` is the outcome of
`generate_public_s3_url` (only consulted when the supplied `signed_url` is
not already an http URL); `gemini` is the outcome of the one
`process_pdf_with_gemini_rest(pdf_url)` call.

When `mint` raises, the `except` branch at line 467 runs
`save_pdf_processing_record(processing_id, file_id, user_id, "", 'failed')`
— five positional arguments, so `pdf_url = ""`, `pdf_summary = 'failed'`
and `status` is left at its default `'pending'`, while the HTTP response
claims `'status': 'failed'`. -/
def process_pdf_action (db : PdfDB) (uid : String)
    (fileId? signedUrl? : Option String) (pid : String)
    (mint : Except String String) (gemini : GeminiResult) : PdfOutcome :=
  match fileId?, signedUrl? with
  | some fid, some surl =>
      if fid = "" ∨ surl = "" then ⟨400, db, 0⟩
      else
        match (if starts_with_http surl then Except.ok surl else mint) with
        | .error _ =>
            ⟨500, save_pdf_processing_record db pid fid uid ""
                    (some "failed") "pending", 0⟩
        | .ok url =>
            match gemini with
            | .success text =>
                ⟨200, save_pdf_processing_record db pid fid uid url
                        (some text) "completed", 1⟩
            | .failure _ =>
                ⟨500, save_pdf_processing_record db pid fid uid url
                        none "failed", 1⟩
  | _, _ => ⟨400, db, 0⟩

/-- The `ask_question` branch (pdf_processor.py lines 480-555): the record
must exist for this caller (404 otherwise) and must be `completed` (400
otherwise, Gemini not invoked); on success exactly one conversation row is
appended. -/
def ask_question_action (db : PdfDB) (uid : String)
    (processingId? question? : Option String) (gemini : GeminiResult) :
    PdfOutcome :=
  match processingId?, question? with
  | some pid, some q =>
      if pid = "" ∨ q = "" then ⟨400, db, 0⟩
      else
        match get_processing_record db pid uid with
        | none => ⟨404, db, 0⟩
        | some rec =>
            if rec.processing_status = "completed" then
              match gemini with
              | .success ans =>
                  ⟨200, { db with convs := db.convs ++
                            [{ processing_id := pid, question := q,
                               answer := ans }] }, 1⟩
              | .failure _ => ⟨500, db, 1⟩
            else ⟨400, db, 0⟩
  | _, _ => ⟨400, db, 0⟩

/-- The `get_conversations` branch (pdf_processor.py lines 557-593). -/
def get_conversations_action (db : PdfDB) (uid : String)
    (processingId? : Option String) : PdfOutcome :=
  match processingId? with
  | some pid =>
      if pid = "" then ⟨400, db, 0⟩
      else
        match get_processing_record db pid uid with
        | none => ⟨404, db, 0⟩
        | some _ => ⟨200, db, 0⟩
  | none => ⟨400, db, 0⟩

/-- `extract_user_info(event)` of pdf_processor.py (lines 342-368) —
UNLIKE the projects/file-upload version, this one falls back to the
`x-user-id` header and then to the body's `user_id` whenever the claims
dict is not truthy; inside the claims branch it uses dict-default lookup
(`claims.get('cognito:username', claims.get('sub'))`), not Python `or`. -/
def extract_user_info (ev : ApiEvent) : Option String :=
  if ev.claimsPresent then
    match ev.claimsUsername with
    | some x => some x
    | none => ev.claimsSub
  else if ev.headerUserId.isSome then ev.headerUserId
  else ev.bodyUserId

/-- The action dispatch of `handler` (pdf_processor.py lines 399-603),
reached once an identity has been resolved. -/
def dispatch (ev : ApiEvent) (db : PdfDB) (uid : String) (pid : String)
    (mint : Except String String) (gemini : GeminiResult) : PdfOutcome :=
  match ev.bodyAction with
  | some "process_pdf" =>
      process_pdf_action db uid ev.bodyFileId ev.bodySignedUrl pid mint gemini
  | some "ask_question" =>
      ask_question_action db uid ev.bodyProcessingId ev.bodyQuestion gemini
  | some "get_conversations" =>
      get_conversations_action db uid ev.bodyProcessingId
  | _ => ⟨400, db, 0⟩

/-- `handler(event, context)` of pdf_processor.py (lines 370-614): CORS
preflight, identity gate (`not user_info or not user_info.get('user_id')`
→ 401), then the action dispatch. -/
def handler (ev : ApiEvent) (db : PdfDB) (pid : String)
    (mint : Except String String) (gemini : GeminiResult) : PdfOutcome :=
  if ev.httpMethod = "OPTIONS" then ⟨200, db, 0⟩
  else
    match extract_user_info ev with
    | none => ⟨401, db, 0⟩
    | some uid =>
        if uid = "" then ⟨401, db, 0⟩
        else dispatch ev db uid pid mint gemini

/-- No branch of the `process_pdf` action answers 401. -/
theorem process_pdf_action_ne_401 (db : PdfDB) (uid : String)
    (f? s? : Option String) (pid : String) (mint : Except String String)
    (gem : GeminiResult) :
    (process_pdf_action db uid f? s? pid mint gem).statusCode ≠ 401 := by
  unfold process_pdf_action
  split
  · split
    · simp
    · split
      · simp
      · split <;> simp
  · simp

/-- No branch of the `ask_question` action answers 401. -/
theorem ask_question_action_ne_401 (db : PdfDB) (uid : String)
    (p? q? : Option String) (gem : GeminiResult) :
    (ask_question_action db uid p? q? gem).statusCode ≠ 401 := by
  unfold ask_question_action
  split
  · split
    · simp
    · split
      · simp
      · split
        · split <;> simp
        · simp
  · simp

/-- No branch of the `get_conversations` action answers 401. -/
theorem get_conversations_action_ne_401 (db : PdfDB) (uid : String)
    (p? : Option String) :
    (get_conversations_action db uid p?).statusCode ≠ 401 := by
  unfold get_conversations_action
  split
  · split
    · simp
    · split <;> simp
  · simp

/-- No dispatched action of the PDF handler answers 401. -/
theorem dispatch_ne_401 (ev : ApiEvent) (db : PdfDB) (uid : String)
    (pid : String) (mint : Except String String) (gem : GeminiResult) :
    (dispatch ev db uid pid mint gem).statusCode ≠ 401 := by
  unfold dispatch
  split
  · exact process_pdf_action_ne_401 db uid ev.bodyFileId ev.bodySignedUrl
      pid mint gem
  · exact ask_question_action_ne_401 db uid ev.bodyProcessingId
      ev.bodyQuestion gem
  · exact get_conversations_action_ne_401 db uid ev.bodyProcessingId
  · simp

/-- C8 at its failing input (code bug).  A `process_pdf` request whose
`signed_url` is an S3 key (not an http URL) and whose URL minting raises:
the handler persists exactly one record for the allocated `processing_id` —
but with `processing_status = "pending"` and `pdf_summary = some "failed"`
(the positional-argument slip at pdf_processor.py line 467), the Gemini
service is called zero times, and the 500 response body nevertheless
claims `'status': 'failed'`.  The claim's promised `"failed"`-with-null
record is not what is stored. -/
theorem c8_failing_eval :
    handler { ApiEvent.base with
              claimsPresent := true, claimsUsername := some "u1",
              bodyAction := some "process_pdf",
              bodyFileId := some "f1",
              bodySignedUrl := some "u1/2024/03/05/f1_a.pdf" }
        ⟨[], []⟩ "pid1" (.error "S3 failure") (.success "summary")
      = ⟨500,
         ⟨[{ processing_id := "pid1", file_id := "f1", user_id := "u1",
             pdf_url := "", pdf_summary := some "failed",
             processing_status := "pending" }], []⟩,
         0⟩ := rfl

/-- C9.  `ask_question` on a record owned by the caller: when the record's
status is anything but `completed` the request is rejected with 400, the
Gemini service is not invoked and the store is unchanged; when the status
is `completed` and the service answers, exactly one conversation row
`(processing_id, question, answer)` is appended and the call answers 200. -/
theorem c9_ask_gating (db : PdfDB) (uid pid q : String)
    (gemini : GeminiResult) (rec : ProcRecord)
    (hpid : pid ≠ "") (hq : q ≠ "")
    (hrec : get_processing_record db pid uid = some rec) :
    (rec.processing_status ≠ "completed" →
        ask_question_action db uid (some pid) (some q) gemini = ⟨400, db, 0⟩)
    ∧ (∀ ans, rec.processing_status = "completed" →
        gemini = .success ans →
        ask_question_action db uid (some pid) (some q) gemini
          = ⟨200, { db with convs := db.convs ++
                      [{ processing_id := pid, question := q,
                         answer := ans }] }, 1⟩) := by
  have heq : ask_question_action db uid (some pid) (some q) gemini
      = if pid = "" ∨ q = "" then ⟨400, db, 0⟩
        else match get_processing_record db pid uid with
          | none => ⟨404, db, 0⟩
          | some rec =>
              if rec.processing_status = "completed" then
                match gemini with
                | .success ans =>
                    ⟨200, { db with convs := db.convs ++
                              [{ processing_id := pid, question := q,
                                 answer := ans }] }, 1⟩
                | .failure _ => ⟨500, db, 1⟩
              else ⟨400, db, 0⟩ := rfl
  have hnotor : ¬ (pid = "" ∨ q = "") := by
    intro h; rcases h with h | h
    · exact hpid h
    · exact hq h
  constructor
  · intro hstat
    simp only [heq, if_neg hnotor, hrec, if_neg hstat]
  · intro ans hstat hg
    subst hg
    simp only [heq, if_neg hnotor, hrec, if_pos hstat]

/-- Witness for C9: asking against a `failed` record is rejected with the
store untouched; asking against a `completed` record appends exactly the
one conversation row. -/
theorem c9_witness :
    (ask_question_action
        ⟨[{ processing_id := "pidF", file_id := "f1", user_id := "u1",
            pdf_url := "http://x", pdf_summary := none,
            processing_status := "failed" }], []⟩
        "u1" (some "pidF") (some "why?") (.success "because")
      = ⟨400, ⟨[{ processing_id := "pidF", file_id := "f1", user_id := "u1",
                  pdf_url := "http://x", pdf_summary := none,
                  processing_status := "failed" }], []⟩, 0⟩)
    ∧ (ask_question_action
        ⟨[{ processing_id := "pidC", file_id := "f1", user_id := "u1",
            pdf_url := "http://x", pdf_summary := some "s",
            processing_status := "completed" }], []⟩
        "u1" (some "pidC") (some "why?") (.success "because")
      = ⟨200, ⟨[{ processing_id := "pidC", file_id := "f1", user_id := "u1",
                  pdf_url := "http://x", pdf_summary := some "s",
                  processing_status := "completed" }],
               [{ processing_id := "pidC", question := "why?",
                  answer := "because" }]⟩, 1⟩) :=
  ⟨(c9_ask_gating
      ⟨[{ processing_id := "pidF", file_id := "f1", user_id := "u1",
          pdf_url := "http://x", pdf_summary := none,
          processing_status := "failed" }], []⟩
      "u1" "pidF" "why?" (.success "because")
      { processing_id := "pidF", file_id := "f1", user_id := "u1",
        pdf_url := "http://x", pdf_summary := none,
        processing_status := "failed" }
      (by decide) (by decide) rfl).1 (by decide),
   (c9_ask_gating
      ⟨[{ processing_id := "pidC", file_id := "f1", user_id := "u1",
          pdf_url := "http://x", pdf_summary := some "s",
          processing_status := "completed" }], []⟩
      "u1" "pidC" "why?" (.success "because")
      { processing_id := "pidC", file_id := "f1", user_id := "u1",
        pdf_url := "http://x", pdf_summary := some "s",
        processing_status := "completed" }
      (by decide) (by decide) rfl).2 "because" rfl rfl⟩

end PdfProcessor

/-- Counterexample to C4: a PDF-processing request (`process_pdf`) whose
trust-token claims yield NO caller identity, but which carries an
`x-user-id` header, is NOT rejected with 401 — the PDF handler accepts the
header identity as fallback and proceeds to field validation (here 400 for
the missing `file_id`/`signed_url`). -/
theorem c4_counterexample :
    (PdfProcessor.handler
        { ApiEvent.base with headerUserId := some "u9",
                             bodyAction := some "process_pdf" }
        ⟨[], []⟩ "pid1" (.ok "unused") (.success "s")).statusCode = 400
    ∧ (PdfProcessor.handler
        { ApiEvent.base with headerUserId := some "u9",
                             bodyAction := some "process_pdf" }
        ⟨[], []⟩ "pid1" (.ok "unused") (.success "s")).statusCode ≠ 401 :=
  ⟨rfl, by decide⟩

/-- C4 amended.  The header/body identity fallback is a feature of the PDF
handler, not of the internal project-creation action: (1) with no truthy
claims the PDF handler's `extract_user_info` returns the `x-user-id`
header when present; (2) once any source yields a truthy identity, no PDF
action answers 401; (3) the file-upload handler answers 401 exactly from
its authorizer-only extraction, (4) which never reads the header or the
body (likewise the projects handler's extraction); and (5) `get_projects`
answers 401 whenever that authorizer-only extraction is falsy.
`create_project` takes its identity from the request body (see
`Projects.handler`). -/
theorem c4_identity_fallback_amended :
    (∀ ev : ApiEvent, ev.claimsPresent = false →
        ev.headerUserId.isSome = true →
        PdfProcessor.extract_user_info ev = ev.headerUserId)
    ∧ (∀ (ev : ApiEvent) (db : PdfProcessor.PdfDB) (pid : String)
          (mint : Except String String) (gem : PdfProcessor.GeminiResult),
        ev.httpMethod ≠ "OPTIONS" →
        pyTruthy (PdfProcessor.extract_user_info ev) = true →
        (PdfProcessor.handler ev db pid mint gem).statusCode ≠ 401)
    ∧ (∀ (ev : ApiEvent) (db : List FileUpload.FileRow)
          (fid date guess : String),
        ev.httpMethod ≠ "OPTIONS" →
        pyTruthy (FileUpload.extract_user_info ev).1 = false →
        FileUpload.handler ev db fid date guess = ⟨401, db⟩)
    ∧ (∀ (ev : ApiEvent) (h b : Option String),
        FileUpload.extract_user_info
            { ev with headerUserId := h, bodyUserId := b }
          = FileUpload.extract_user_info ev
        ∧ Projects.extract_user_info
            { ev with headerUserId := h, bodyUserId := b }
          = Projects.extract_user_info ev)
    ∧ (∀ (ev : ApiEvent) (st : Projects.DBState) (fp : String) (now : Nat),
        ev.bodyAction = some "get_projects" →
        pyTruthy (Projects.extract_user_info ev).1 = false →
        Projects.handler ev st fp now = ⟨401, st, false⟩) := by
  refine ⟨?_, ?_, ?_, ?_, ?_⟩
  · intro ev hcl hhd
    simp [PdfProcessor.extract_user_info, hcl, hhd]
  · intro ev db pid mint gem hopt htr
    unfold PdfProcessor.handler
    rw [if_neg hopt]
    cases hx : PdfProcessor.extract_user_info ev with
    | none => rw [hx] at htr; simp [pyTruthy] at htr
    | some uid =>
      rw [hx] at htr
      have huid : ¬ uid = "" := by simpa [pyTruthy] using htr
      show (if uid = "" then (⟨401, db, 0⟩ : PdfProcessor.PdfOutcome)
            else PdfProcessor.dispatch ev db uid pid mint gem).statusCode ≠ 401
      rw [if_neg huid]
      exact PdfProcessor.dispatch_ne_401 ev db uid pid mint gem
  · intro ev db fid date guess hopt hfalse
    unfold FileUpload.handler
    rw [if_neg hopt]
    cases hx : (FileUpload.extract_user_info ev).1 with
    | none => rfl
    | some uid =>
      rw [hx] at hfalse
      have huid : uid = "" := by simpa [pyTruthy] using hfalse
      subst huid
      rfl
  · intro ev h b
    exact ⟨rfl, rfl⟩
  · intro ev st fp now hact hfalse
    unfold Projects.handler
    rw [hact]
    show (if pyTruthy (Projects.extract_user_info ev).1
          then (⟨200, st, true⟩ : Projects.ProjOutcome)
          else ⟨401, st, false⟩) = ⟨401, st, false⟩
    rw [hfalse]
    simp

/-- Witness for C4 (amended): on a claims-free event carrying the header
`x-user-id: u9`, the PDF handler's extraction resolves exactly to the
header value. -/
theorem c4_witness :
    PdfProcessor.extract_user_info
        { ApiEvent.base with headerUserId := some "u9" }
      = ({ ApiEvent.base with headerUserId := some "u9" } : ApiEvent).headerUserId :=
  c4_identity_fallback_amended.1
    { ApiEvent.base with headerUserId := some "u9" } rfl rfl

end AWSPotato
